import Mathlib

/-!
Shallow embedding of the FCOS test-VM lifecycle manager (`tests/vm.py`).

The embedding models the per-VM on-disk state (pid marker, boot-mode marker,
console socket, disk images, live ISO) as a `FileSys` record, external process
liveness and the hypervisor launch outcome as an `Env` oracle, and each
lifecycle operation (`status`, `start`, `stop`, `restart`, `create_disks`,
`delete_disks`, SSH readiness waiting) as an executable function over those.
Console output and process signals are recorded as an event list.  Liveness
queries are indexed by a logical clock threaded through the operations, so the
external process may die or appear between successive observations.
-/

/-- Boot mode of a VM (`BootMode` enum in the source): live ISO or installed
disk. -/
inductive BootMode where
  | live
  | disk
deriving DecidableEq

/-- String value persisted in the state file for a boot mode
(`BootMode.value`). -/
def BootMode.value : BootMode → String
  | BootMode.live => "live"
  | BootMode.disk => "disk"

/-- Derived VM status (`Status = Literal["running", "stopped", "not_created"]`). -/
inductive Status where
  | running
  | stopped
  | not_created
deriving DecidableEq

/-- Path constants from the source configuration section. -/
def DISKS_DIR : String := ".testenv/disks"

/-- Logs directory path constant. -/
def LOGS_DIR : String := ".testenv/logs"

/-- Shared live ISO path constant. -/
def LIVE_ISO : String := ".testenv/live.iso"

/-- Path of the system disk image (`DiskManager.system_disk`). -/
def systemDiskPath (name : String) : String :=
  DISKS_DIR ++ "/" ++ name ++ "-system.qcow2"

/-- Path of the optional data disk image (`DiskManager.data_disk`). -/
def dataDiskPath (name : String) : String :=
  DISKS_DIR ++ "/" ++ name ++ "-data.qcow2"

/-- Path of the pid marker file (`VM.pid_file`). -/
def pidFilePath (name : String) : String := DISKS_DIR ++ "/" ++ name ++ ".pid"

/-- Path of the boot-mode marker file (`VM.state_file`). -/
def stateFilePath (name : String) : String := DISKS_DIR ++ "/" ++ name ++ ".state"

/-- Path of the console socket (`VM.console_socket`). -/
def consoleSocketPath (name : String) : String := DISKS_DIR ++ "/" ++ name ++ ".sock"

/-- Path of the console log file (`VM.log_file`). -/
def logFilePath (name : String) : String := LOGS_DIR ++ "/" ++ name ++ ".log"

/-- Immutable VM configuration (`VMConfig` dataclass). -/
structure VMConfig where
  name : String
  port : Nat
  mac : String
  has_data_disk : Bool := false
  second_nic_mac : Option String := none
  ssh_port : Nat := 22
  memory : Nat := 2048
  cpus : Nat := 2
  system_disk_size : String := "20G"
  data_disk_size : String := "5G"
deriving DecidableEq

/-- The `min` entry of the `VM_CONFIGS` registry. -/
def minConfig : VMConfig :=
  { name := "min", port := 3021, mac := "EA:C5:B8:F5:4E:DF" }

/-- The `full` entry of the `VM_CONFIGS` registry. -/
def fullConfig : VMConfig :=
  { name := "full", port := 3022, mac := "DE:0C:DF:04:6D:30",
    has_data_disk := true, second_nic_mac := some "DE:0C:DF:04:6D:31",
    ssh_port := 2222 }

/-- Platform-resolved values used in the hypervisor command line
(`Platform.qemu_binary`, `Platform.qemu_accel`, `Platform.firmware_path`). -/
structure PlatformInfo where
  qemu_binary : String
  qemu_accel : String
  firmware_path : String
deriving DecidableEq

/-- On-disk state owned by one VM name.  `pidFile` and `stateFile` hold the
file's text content when the file exists; the remaining fields record bare
existence of the console socket, the two disk images, the shared live ISO, and
the two output directories. -/
structure FileSys where
  pidFile : Option String
  stateFile : Option String
  sockFile : Bool
  systemDisk : Bool
  dataDisk : Bool
  liveIso : Bool
  logsDir : Bool
  disksDir : Bool
deriving DecidableEq

/-- Whitespace-stripping of a string, modelling Python's `str.strip()`. -/
def pyStrip (s : String) : String :=
  String.mk (((s.data.dropWhile Char.isWhitespace).reverse.dropWhile
    Char.isWhitespace).reverse)

/-- Value of a digit list, most significant first. -/
def digitsToNat (l : List Char) : Nat :=
  l.foldl (fun n c => 10 * n + (c.toNat - 48)) 0

/-- Parse a nonempty all-digit character list, else fail. -/
def parseDigits (l : List Char) : Option Nat :=
  match l with
  | [] => none
  | _ :: _ => if l.all Char.isDigit then some (digitsToNat l) else none

/-- Model of Python's `int(text.strip())` as used by `VM.pid`: optional sign
followed by digits, with surrounding whitespace stripped; `none` models the
`ValueError` path. -/
def parsePyInt (s : String) : Option Int :=
  match (pyStrip s).data with
  | '-' :: cs => (parseDigits cs).map (fun n => -(n : Int))
  | '+' :: cs => (parseDigits cs).map (fun n => (n : Int))
  | l => (parseDigits l).map (fun n => (n : Int))

/-- Whether the first list is a leading segment of the second. -/
def startsWithChars : List Char → List Char → Bool
  | [], _ => true
  | _ :: _, [] => false
  | c :: cs, d :: ds => c == d && startsWithChars cs ds

/-- Whether the first list occurs as a contiguous segment of the second. -/
def containsChars (sub : List Char) : List Char → Bool
  | [] => startsWithChars sub []
  | c :: cs => startsWithChars sub (c :: cs) || containsChars sub cs

/-- Model of Python's `sub in s` substring test on strings. -/
def strContains (s sub : String) : Bool := containsChars sub.data s.data

/-- Outcome of launching the hypervisor (`ProcessRunner.run` on the QEMU
command): exit code, captured stderr (possibly absent), and the effect the
launch had on the pid marker and console socket (QEMU itself writes the
pid file via `-pidfile` and creates the socket). -/
structure LaunchOutcome where
  returncode : Int
  stderr : Option String
  pidFileAfter : Option String
  sockAfter : Bool
deriving DecidableEq

/-- External environment: a time-indexed process-liveness oracle (modelling
`ProcessRunner.is_running`, queried at successive instants) and the outcome of
a hypervisor launch. -/
structure Env where
  alive : Nat → Int → Bool
  launch : LaunchOutcome

/-- Observable events of one operation: console messages, the hypervisor
launch, signals sent, and half-time-unit sleeps. -/
inductive Event where
  | info (msg : String)
  | success (msg : String)
  | launch (cmd : List String)
  | sigterm (p : Int)
  | sigkill (p : Int)
  | sleepHalf
deriving DecidableEq

/-- Errors raised by the lifecycle operations (each constructor tags one
`raise` site in the source and carries the exact message built there). -/
inductive VMError where
  | diskNotFound (msg : String)
  | mediaNotFound (msg : String)
  | portInUse (msg : String)
  | launchFailed (msg : String)
  | toolFailed (msg : String)
deriving DecidableEq

/-- Result of one lifecycle operation: resulting file state, advanced liveness
clock, emitted events, and the raised error if any. -/
structure OpResult where
  fs : FileSys
  clk : Nat
  events : List Event
  err : Option VMError
deriving DecidableEq

/-- Read the pid marker (`VM.pid`): `none` when the file is absent or its
content does not parse as an integer. -/
def VM.pid (fs : FileSys) : Option Int :=
  match fs.pidFile with
  | none => none
  | some s => parsePyInt s

/-- Liveness of the marked process at instant `t` (`VM.is_running`). -/
def VM.is_running (env : Env) (fs : FileSys) (t : Nat) : Bool :=
  match VM.pid fs with
  | none => false
  | some p => env.alive t p

/-- Existence of the system disk image (`VM.disk_exists`). -/
def VM.disk_exists (fs : FileSys) : Bool := fs.systemDisk

/-- Derived status (`VM.status`). -/
def VM.status (env : Env) (fs : FileSys) (t : Nat) : Status :=
  if VM.is_running env fs t then Status.running
  else if VM.disk_exists fs then Status.stopped
  else Status.not_created

/-- Read the boot-mode marker (`VM.boot_mode`): `none` when the file is absent
or holds neither literal token. -/
def VM.boot_mode (fs : FileSys) : Option BootMode :=
  match fs.stateFile with
  | none => none
  | some s =>
    if pyStrip s = "live" then some BootMode.live
    else if pyStrip s = "disk" then some BootMode.disk
    else none

/-- Remove boot-mode and pid markers (`VM._cleanup_state_files`). -/
def VM.cleanup_state_files (fs : FileSys) : FileSys :=
  { fs with stateFile := none, pidFile := none }

/-- Remove the console socket (`VM._cleanup_console_socket`). -/
def VM.cleanup_console_socket (fs : FileSys) : FileSys :=
  { fs with sockFile := false }

/-- Leading segment of the QEMU argument vector built by
`VM._build_qemu_command`: base machine flags, firmware, and the system disk. -/
def qemuBase (plat : PlatformInfo) (cfg : VMConfig) : List String :=
  [plat.qemu_binary,
   "-name", cfg.name,
   "-machine", "virt,accel=" ++ plat.qemu_accel,
   "-cpu", "host",
   "-m", toString cfg.memory,
   "-smp", toString cfg.cpus,
   "-drive", "if=pflash,format=raw,readonly=on,file=" ++ plat.firmware_path,
   "-drive", "file=" ++ systemDiskPath cfg.name ++ ",if=virtio,format=qcow2"]

/-- Boot-mode dependent segment of the argument vector together with the
guest-internal forwarded service port: installed disk boots from the block
device and forwards to the configured port, live media attaches the ISO as a
boot CD-ROM and forwards to the well-known port 22. -/
def qemuBoot (cfg : VMConfig) : BootMode → List String × Nat
  | BootMode.disk => (["-boot", "c"], cfg.ssh_port)
  | BootMode.live => (["-cdrom", LIVE_ISO, "-boot", "d"], 22)

/-- Display, serial, daemonize and pidfile segment of the argument vector. -/
def qemuSerialPart (cfg : VMConfig) : List String :=
  ["-display", "none",
   "-serial", "file:" ++ logFilePath cfg.name,
   "-serial", "unix:" ++ consoleSocketPath cfg.name ++ ",server,nowait",
   "-daemonize", "-pidfile", pidFilePath cfg.name]

/-- Optional data-disk segment: attached only when the data disk is configured
and its file exists. -/
def qemuDataPart (cfg : VMConfig) (fs : FileSys) : List String :=
  if cfg.has_data_disk && fs.dataDisk then
    ["-drive", "file=" ++ dataDiskPath cfg.name ++ ",if=virtio,format=qcow2"]
  else []

/-- Optional second-NIC segment, attached when a second MAC is configured. -/
def qemuNicPart (cfg : VMConfig) : List String :=
  match cfg.second_nic_mac with
  | some m =>
    ["-netdev", "user,id=net1",
     "-device", "virtio-net-pci,netdev=net1,mac=" ++ m]
  | none => []

/-- Build the QEMU argument vector and the guest-internal forwarded port
(`VM._build_qemu_command`).  The successive `cmd.extend` calls of the source
are modelled as list concatenation of the same segments in the same order. -/
def VM.build_qemu_command (plat : PlatformInfo) (cfg : VMConfig) (fs : FileSys)
    (mode : BootMode) : List String × Nat :=
  let boot := qemuBoot cfg mode
  let net : List String :=
    ["-netdev",
     "user,id=net0,hostfwd=tcp::" ++ toString cfg.port ++ "-:" ++ toString boot.2,
     "-device", "virtio-net-pci,netdev=net0,mac=" ++ cfg.mac]
  (qemuBase plat cfg ++ boot.1 ++ net ++ qemuSerialPart cfg ++
    qemuDataPart cfg fs ++ qemuNicPart cfg, boot.2)

/-- Stripped captured stderr of a launch
(`result.stderr.strip() if result.stderr else ""`). -/
def stderrText (o : LaunchOutcome) : String :=
  match o.stderr with
  | some s => pyStrip s
  | none => ""

/-- Body of `VM.start` after the liveness observation has been taken:
`running` is the observed `is_running` value, `launch` the hypervisor launch
outcome.  Returns resulting file state, events, and error. -/
def VM.startCore (plat : PlatformInfo) (cfg : VMConfig) (mode : BootMode)
    (running : Bool) (launch : LaunchOutcome) (fs : FileSys) :
    FileSys × List Event × Option VMError :=
  if running then
    let modeInfo : String :=
      match VM.boot_mode fs with
      | some m => ", " ++ m.value
      | none => ""
    (fs,
     [Event.info ("• " ++ cfg.name ++ ": already running (port " ++
        toString cfg.port ++ modeInfo ++ ")")],
     none)
  else if VM.disk_exists fs = false then
    (fs, [],
     some (VMError.diskNotFound
       (cfg.name ++ ": disk not found. Run \x27create\x27 first.")))
  else if mode = BootMode.live ∧ fs.liveIso = false then
    (fs, [],
     some (VMError.mediaNotFound
       ("Live ISO not found: " ++ LIVE_ISO ++ ". Run \x27make setup\x27 first.")))
  else
    let fs1 := { fs with logsDir := true, disksDir := true }
    let bq := VM.build_qemu_command plat cfg fs1 mode
    let fs2 :=
      { fs1 with pidFile := launch.pidFileAfter, sockFile := launch.sockAfter }
    if launch.returncode ≠ 0 then
      let fs3 := { fs2 with pidFile := none }
      if strContains (stderrText launch) "Could not set up host forwarding rule" then
        (fs3, [Event.launch bq.1],
         some (VMError.portInUse
           (cfg.name ++ ": port " ++ toString cfg.port ++
            " already in use. Run \x27./vm.py stop\x27 or check for stale QEMU processes.")))
      else
        (fs3, [Event.launch bq.1],
         some (VMError.launchFailed
           (cfg.name ++ ": QEMU failed to start: " ++ stderrText launch)))
    else
      let fs3 := { fs2 with stateFile := some mode.value }
      (fs3,
       [Event.launch bq.1,
        Event.success ("Started " ++ cfg.name ++ " (port " ++
          toString cfg.port ++ ", " ++ mode.value ++ ")")],
       none)

/-- `VM.start`: observe liveness at the current clock instant, then run the
start body; the clock advances by the one liveness query made. -/
def VM.start (plat : PlatformInfo) (cfg : VMConfig) (mode : BootMode)
    (env : Env) (fs : FileSys) (clk : Nat) : OpResult :=
  let t := VM.startCore plat cfg mode (VM.is_running env fs clk) env.launch fs
  { fs := t.1, clk := clk + 1, events := t.2.1, err := t.2.2 }

/-- Graceful-shutdown polling loop of `VM.stop` (`for _ in range(20)` with a
0.5-unit sleep per still-alive observation).  `a k` is the liveness
observation of the loop's `k`-th iteration.  Returns the sleep events, whether
the loop exhausted its budget without seeing the process die (Python's
`for`-`else`), and the number of liveness queries made. -/
def stopPoll (a : Nat → Bool) : Nat → Nat → List Event × Bool × Nat
  | 0, _ => ([], true, 0)
  | fuel + 1, k =>
    if a k then
      let r := stopPoll a fuel (k + 1)
      (Event.sleepHalf :: r.1, r.2.1, r.2.2 + 1)
    else ([], false, 1)

/-- `VM.stop`: no-op without a readable pid marker; silent cleanup for a stale
marker; otherwise SIGTERM, bounded polling, SIGKILL escalation on exhaustion,
then unconditional cleanup. -/
def VM.stop (cfg : VMConfig) (env : Env) (fs : FileSys) (clk : Nat) : OpResult :=
  match VM.pid fs with
  | none => { fs := fs, clk := clk, events := [], err := none }
  | some p =>
    if VM.is_running env fs clk = false then
      { fs := VM.cleanup_console_socket (VM.cleanup_state_files fs),
        clk := clk + 1, events := [], err := none }
    else
      let r := stopPoll (fun k => env.alive (clk + 1 + k) p) 20 0
      let evs := Event.sigterm p :: r.1
      let evs := if r.2.1 then evs ++ [Event.sigkill p, Event.sleepHalf] else evs
      { fs := VM.cleanup_console_socket (VM.cleanup_state_files fs),
        clk := clk + 1 + r.2.2,
        events := evs ++ [Event.success ("Stopped " ++ cfg.name)],
        err := none }

/-- `VM.restart`: stop first when running, then start from the installed
disk. -/
def VM.restart (plat : PlatformInfo) (cfg : VMConfig) (env : Env)
    (fs : FileSys) (clk : Nat) : OpResult :=
  if VM.is_running env fs clk then
    let s := VM.stop cfg env fs (clk + 1)
    let r := VM.start plat cfg BootMode.disk env s.fs s.clk
    { fs := r.fs, clk := r.clk, events := s.events ++ r.events, err := r.err }
  else
    VM.start plat cfg BootMode.disk env fs (clk + 1)

/-- Outcome of the two `qemu-img create` tool invocations of
`DiskManager.create` (each runs with `check=True`). -/
structure CreateEnv where
  sysImgOk : Bool
  dataImgOk : Bool
deriving DecidableEq

/-- `DiskManager.delete`: unlink the system image and, when a data disk is
configured, the data image; unlinking a missing file is not an error. -/
def DiskManager.delete (cfg : VMConfig) (fs : FileSys) : FileSys :=
  let fs1 := { fs with systemDisk := false }
  if cfg.has_data_disk then { fs1 with dataDisk := false } else fs1

/-- `DiskManager.create`: ensure the disks directory, delete pre-existing
images, then create the system image and, if configured, the data image; a
failing tool invocation aborts the remainder. -/
def DiskManager.create (cfg : VMConfig) (cenv : CreateEnv) (fs : FileSys) :
    FileSys × Option VMError :=
  let fs1 := { fs with disksDir := true }
  let fs2 := DiskManager.delete cfg fs1
  if cenv.sysImgOk = false then
    (fs2, some (VMError.toolFailed "qemu-img create system"))
  else
    let fs3 := { fs2 with systemDisk := true }
    if cfg.has_data_disk then
      if cenv.dataImgOk = false then
        (fs3, some (VMError.toolFailed "qemu-img create data"))
      else ({ fs3 with dataDisk := true }, none)
    else (fs3, none)

/-- `VM.create_disks`: clear state markers, then create fresh images. -/
def VM.create_disks (cfg : VMConfig) (cenv : CreateEnv) (fs : FileSys) :
    FileSys × Option VMError :=
  DiskManager.create cfg cenv (VM.cleanup_state_files fs)

/-- `VM.delete_disks`: delete images, then clear state markers and the console
socket; never an error. -/
def VM.delete_disks (cfg : VMConfig) (fs : FileSys) : FileSys :=
  VM.cleanup_console_socket (VM.cleanup_state_files (DiskManager.delete cfg fs))

/-- Result of `SSHClient.wait`: whether SSH became ready, the raised timeout
message if not, the number of progress dots printed, and the elapsed time. -/
structure WaitOutcome where
  ok : Bool
  errMsg : Option String
  dots : Nat
  elapsed : Nat
deriving DecidableEq

/-- Loop of `SSHClient.wait`: at elapsed time `t`, while `t < timeout`, make
attempt `k`; a failed attempt sleeps 2 time units and prints one dot.
`probe k` models the `check()` result of the `k`-th attempt. -/
def sshWaitAux (probe : Nat → Bool) (timeout : Nat) (k t : Nat) : WaitOutcome :=
  if t < timeout then
    if probe k then { ok := true, errMsg := none, dots := k, elapsed := t }
    else sshWaitAux probe timeout (k + 1) (t + 2)
  else
    { ok := false,
      errMsg := some ("SSH timeout after " ++ toString timeout ++ "s"),
      dots := k, elapsed := t }
termination_by timeout - t
decreasing_by omega

/-- `SSHClient.wait`: poll from elapsed time zero. -/
def SSHClient.wait (probe : Nat → Bool) (timeout : Nat) : WaitOutcome :=
  sshWaitAux probe timeout 0 0

/-! Concrete fixtures used to instantiate the theorems below. -/

/-- A successful hypervisor launch outcome. -/
def launchOk : LaunchOutcome :=
  { returncode := 0, stderr := none, pidFileAfter := some "77", sockAfter := true }

/-- A failed hypervisor launch outcome with a generic error text. -/
def launchBoom : LaunchOutcome :=
  { returncode := 1, stderr := some "qemu: failed\n", pidFileAfter := some "99",
    sockAfter := false }

/-- Environment in which every process is alive and launches succeed. -/
def envLive : Env := { alive := fun _ _ => true, launch := launchOk }

/-- Environment in which no process is alive and launches succeed. -/
def envDead : Env := { alive := fun _ _ => false, launch := launchOk }

/-- Environment in which no process is alive and launches fail. -/
def envFail : Env := { alive := fun _ _ => false, launch := launchBoom }

/-- File state of a running VM: pid marker `42`, boot-mode marker `live`. -/
def fsRunning : FileSys :=
  { pidFile := some "42", stateFile := some "live", sockFile := true,
    systemDisk := true, dataDisk := false, liveIso := true,
    logsDir := true, disksDir := true }

/-- File state of a cleanly stopped VM: system disk only. -/
def fsStopped : FileSys :=
  { pidFile := none, stateFile := none, sockFile := false, systemDisk := true,
    dataDisk := false, liveIso := true, logsDir := true, disksDir := true }

/-- File state of a never-created VM: no disk image, no markers. -/
def fsEmpty : FileSys :=
  { pidFile := none, stateFile := none, sockFile := false, systemDisk := false,
    dataDisk := false, liveIso := true, logsDir := false, disksDir := false }

/-- A platform resolution fixture. -/
def platT : PlatformInfo :=
  { qemu_binary := "/usr/bin/qemu-system-x86_64", qemu_accel := "kvm",
    firmware_path := "/usr/share/OVMF/OVMF_CODE.fd" }

/-- Create-environment fixture in which both image creations succeed. -/
def cenvOk : CreateEnv := { sysImgOk := true, dataImgOk := true }

/-- The `is_running` observation is true exactly when the pid marker exists,
parses, and the parsed pid is alive at the observation instant. -/
theorem vm_is_running_iff (env : Env) (fs : FileSys) (t : Nat) :
    VM.is_running env fs t = true ↔
      ∃ s p, fs.pidFile = some s ∧ parsePyInt s = some p ∧
        env.alive t p = true := by
  unfold VM.is_running VM.pid
  cases hfp : fs.pidFile with
  | none => simp
  | some s =>
    cases hps : parsePyInt s with
    | none => simp [hps]
    | some p => simp [hps]

/-- C1: for every VM observation the derived status is exactly one of
running, stopped, not created; running implies the pid marker exists, parses,
and names a live process; stopped implies the system disk exists and the
marked process is not live; not created implies the system disk is absent. -/
theorem vm_status_invariant (env : Env) (fs : FileSys) (t : Nat) :
    (VM.status env fs t = Status.running ∨ VM.status env fs t = Status.stopped ∨
      VM.status env fs t = Status.not_created) ∧
    (VM.status env fs t = Status.running →
      ∃ s p, fs.pidFile = some s ∧ parsePyInt s = some p ∧
        env.alive t p = true) ∧
    (VM.status env fs t = Status.stopped →
      fs.systemDisk = true ∧ VM.is_running env fs t = false) ∧
    (VM.status env fs t = Status.not_created → fs.systemDisk = false) := by
  refine ⟨?_, ?_, ?_, ?_⟩
  · unfold VM.status
    by_cases hr : VM.is_running env fs t = true <;>
      by_cases hd : VM.disk_exists fs = true <;> simp [hr, hd]
  · intro h
    simp only [VM.status] at h
    split at h
    · next hr => exact (vm_is_running_iff env fs t).mp hr
    · split at h
      · exact absurd h (by decide)
      · exact absurd h (by decide)
  · intro h
    simp only [VM.status] at h
    split at h
    · exact absurd h (by decide)
    · next hr =>
      split at h
      · next hd =>
        exact ⟨by simpa [VM.disk_exists] using hd, by simpa using hr⟩
      · exact absurd h (by decide)
  · intro h
    simp only [VM.status] at h
    split at h
    · exact absurd h (by decide)
    · split at h
      · exact absurd h (by decide)
      · next hd => simpa [VM.disk_exists] using hd

/-- C1 witness: in a concrete running state the theorem yields a parsed, live
pid. -/
theorem vm_status_invariant_witness :
    ∃ s p, fsRunning.pidFile = some s ∧ parsePyInt s = some p ∧
      envLive.alive 0 p = true :=
  (vm_status_invariant envLive fsRunning 0).2.1 (by decide)

/-- C2: starting an already-running VM is a no-op: no hypervisor launch, no
file change, no error, and one informational message reporting the configured
port and the recorded boot mode. -/
theorem vm_start_idempotent (plat : PlatformInfo) (cfg : VMConfig)
    (mode : BootMode) (env : Env) (fs : FileSys) (clk : Nat)
    (h : VM.is_running env fs clk = true) :
    VM.start plat cfg mode env fs clk =
      { fs := fs, clk := clk + 1,
        events := [Event.info ("• " ++ cfg.name ++ ": already running (port " ++
          toString cfg.port ++
          (match VM.boot_mode fs with
           | some m => ", " ++ m.value
           | none => "") ++ ")")],
        err := none } ∧
    ∀ c, Event.launch c ∉ (VM.start plat cfg mode env fs clk).events := by
  have he : VM.start plat cfg mode env fs clk =
      { fs := fs, clk := clk + 1,
        events := [Event.info ("• " ++ cfg.name ++ ": already running (port " ++
          toString cfg.port ++
          (match VM.boot_mode fs with
           | some m => ", " ++ m.value
           | none => "") ++ ")")],
        err := none } := by
    simp [VM.start, VM.startCore, h]
  refine ⟨he, ?_⟩
  intro c
  rw [he]
  simp

/-- C2 witness: concrete already-running start reports port and mode and
performs no launch. -/
theorem vm_start_idempotent_witness :
    VM.start platT minConfig BootMode.live envLive fsRunning 0 =
      { fs := fsRunning, clk := 1,
        events := [Event.info "• min: already running (port 3021, live)"],
        err := none } ∧
    ∀ c, Event.launch c ∉
      (VM.start platT minConfig BootMode.live envLive fsRunning 0).events :=
  vm_start_idempotent platT minConfig BootMode.live envLive fsRunning 0 (by decide)

/-- C3: starting a VM in the not-created state (marked process not live and
system disk absent) fails with the disk-not-found error, performs no launch,
and changes no file. -/
theorem vm_start_not_created (plat : PlatformInfo) (cfg : VMConfig)
    (mode : BootMode) (env : Env) (fs : FileSys) (clk : Nat)
    (hrun : VM.is_running env fs clk = false)
    (hdisk : fs.systemDisk = false) :
    VM.start plat cfg mode env fs clk =
      { fs := fs, clk := clk + 1, events := [],
        err := some (VMError.diskNotFound
          (cfg.name ++ ": disk not found. Run \x27create\x27 first.")) } := by
  simp [VM.start, VM.startCore, hrun, VM.disk_exists, hdisk]

/-- C3 witness: concrete start on an empty file state fails with
disk-not-found and no events. -/
theorem vm_start_not_created_witness :
    VM.start platT minConfig BootMode.live envDead fsEmpty 0 =
      { fs := fsEmpty, clk := 1, events := [],
        err := some (VMError.diskNotFound
          "min: disk not found. Run \x27create\x27 first.") } :=
  vm_start_not_created platT minConfig BootMode.live envDead fsEmpty 0
    (by decide) (by decide)

/-- C4: when the hypervisor launch exits nonzero, start removes the pid
marker and leaves the boot-mode marker unchanged; it raises a port-in-use
error naming the host port when stderr indicates the host forwarding rule
failed, otherwise a launch-failed error carrying the captured stderr text;
the boot-mode marker is written exactly when the launch succeeds. -/
theorem vm_start_launch_failure (plat : PlatformInfo) (cfg : VMConfig)
    (mode : BootMode) (env : Env) (fs : FileSys) (clk : Nat)
    (hrun : VM.is_running env fs clk = false)
    (hdisk : fs.systemDisk = true)
    (hiso : mode = BootMode.live → fs.liveIso = true) :
    (env.launch.returncode ≠ 0 →
      (VM.start plat cfg mode env fs clk).fs.pidFile = none ∧
      (VM.start plat cfg mode env fs clk).fs.stateFile = fs.stateFile ∧
      (VM.start plat cfg mode env fs clk).err =
        some (if strContains (stderrText env.launch)
            "Could not set up host forwarding rule" then
          VMError.portInUse (cfg.name ++ ": port " ++ toString cfg.port ++
            " already in use. Run \x27./vm.py stop\x27 or check for stale QEMU processes.")
        else
          VMError.launchFailed
            (cfg.name ++ ": QEMU failed to start: " ++ stderrText env.launch))) ∧
    (env.launch.returncode = 0 →
      (VM.start plat cfg mode env fs clk).fs.stateFile = some mode.value ∧
      (VM.start plat cfg mode env fs clk).err = none) := by
  have hnl : ¬ (mode = BootMode.live ∧ fs.liveIso = false) := by
    rintro ⟨hm, hl⟩
    rw [hiso hm] at hl
    exact Bool.noConfusion hl
  constructor
  · intro hrc
    by_cases hc : strContains (stderrText env.launch)
        "Could not set up host forwarding rule" = true
    · refine ⟨?_, ?_, ?_⟩ <;>
        simp [VM.start, VM.startCore, hrun, VM.disk_exists, hdisk, hnl, hrc, hc]
    · rw [Bool.not_eq_true] at hc
      refine ⟨?_, ?_, ?_⟩ <;>
        simp [VM.start, VM.startCore, hrun, VM.disk_exists, hdisk, hnl, hrc, hc]
  · intro hrc
    refine ⟨?_, ?_⟩ <;>
      simp [VM.start, VM.startCore, hrun, VM.disk_exists, hdisk, hnl, hrc]

/-- C4 witness: a concrete failed launch with generic stderr removes the pid
marker, keeps the boot-mode marker, and raises launch-failed with the
stripped stderr text. -/
theorem vm_start_launch_failure_witness :
    (VM.start platT minConfig BootMode.disk envFail fsStopped 0).fs.pidFile = none ∧
    (VM.start platT minConfig BootMode.disk envFail fsStopped 0).fs.stateFile =
      fsStopped.stateFile ∧
    (VM.start platT minConfig BootMode.disk envFail fsStopped 0).err =
      some (VMError.launchFailed "min: QEMU failed to start: qemu: failed") :=
  (vm_start_launch_failure platT minConfig BootMode.disk envFail fsStopped 0
    (by decide) (by decide) (by decide)).1 (by decide)

/-- C5: stop without a readable pid marker is a no-op raising no error and
changing no file; stop with a stale marker (process not alive) clears the
markers and console socket silently; and on any VM whose marked process is
not live, two sequential stops both succeed, the second one without side
effects. -/
theorem vm_stop_idempotent (cfg : VMConfig) (env : Env) (fs : FileSys)
    (clk : Nat) :
    (VM.pid fs = none →
      VM.stop cfg env fs clk = { fs := fs, clk := clk, events := [], err := none }) ∧
    (∀ p, VM.pid fs = some p → env.alive clk p = false →
      VM.stop cfg env fs clk =
        { fs := VM.cleanup_console_socket (VM.cleanup_state_files fs),
          clk := clk + 1, events := [], err := none }) ∧
    (VM.is_running env fs clk = false →
      (VM.stop cfg env fs clk).err = none ∧
      (VM.stop cfg env (VM.stop cfg env fs clk).fs (VM.stop cfg env fs clk).clk).err = none ∧
      (VM.stop cfg env (VM.stop cfg env fs clk).fs (VM.stop cfg env fs clk).clk).fs =
        (VM.stop cfg env fs clk).fs ∧
      (VM.stop cfg env (VM.stop cfg env fs clk).fs (VM.stop cfg env fs clk).clk).events = []) := by
  have hnone : ∀ fs2 clk2, VM.pid fs2 = none →
      VM.stop cfg env fs2 clk2 = { fs := fs2, clk := clk2, events := [], err := none } := by
    intro fs2 clk2 h
    simp [VM.stop, h]
  have hstale : ∀ p, VM.pid fs = some p → env.alive clk p = false →
      VM.stop cfg env fs clk =
        { fs := VM.cleanup_console_socket (VM.cleanup_state_files fs),
          clk := clk + 1, events := [], err := none } := by
    intro p hp ha
    simp [VM.stop, hp, VM.is_running, ha]
  refine ⟨hnone fs clk, hstale, ?_⟩
  intro h
  cases hp : VM.pid fs with
  | none =>
    rw [hnone fs clk hp]
    rw [hnone fs clk hp]
    simp [hnone fs clk hp]
  | some p =>
    have ha : env.alive clk p = false := by
      simpa [VM.is_running, hp] using h
    rw [hstale p hp ha]
    have hp2 : VM.pid (VM.cleanup_console_socket (VM.cleanup_state_files fs)) = none := by
      simp [VM.pid, VM.cleanup_console_socket, VM.cleanup_state_files]
    simp [hnone _ _ hp2]

/-- C5 witness: a concrete stale-marker stop clears the markers and socket
with no events and no error. -/
theorem vm_stop_idempotent_witness :
    VM.stop minConfig envDead fsRunning 0 =
      { fs := VM.cleanup_console_socket (VM.cleanup_state_files fsRunning),
        clk := 1, events := [], err := none } :=
  (vm_stop_idempotent minConfig envDead fsRunning 0).2.1 42 (by decide) (by decide)

/-- Characterisation of the graceful-shutdown polling loop: it sleeps once per
leading alive observation, at most `fuel` times, and exhausts its budget
exactly when every observation within the budget saw the process alive. -/
theorem stopPoll_char (a : Nat → Bool) :
    ∀ fuel k, ∃ m, m ≤ fuel ∧
      (stopPoll a fuel k).1 = List.replicate m Event.sleepHalf ∧
      ((stopPoll a fuel k).2.1 = true ↔ m = fuel) ∧
      (∀ i, i < m → a (k + i) = true) ∧
      (m < fuel → a (k + m) = false) := by
  intro fuel
  induction fuel with
  | zero =>
    intro k
    exact ⟨0, Nat.le_refl 0, rfl, by simp [stopPoll], by omega, by omega⟩
  | succ n ih =>
    intro k
    by_cases hak : a k = true
    · obtain ⟨m, hm, h1, h2, h3, h4⟩ := ih (k + 1)
      refine ⟨m + 1, by omega, ?_, ?_, ?_, ?_⟩
      · simp [stopPoll, hak, h1, List.replicate_succ]
      · simp only [stopPoll, hak, if_true]
        rw [h2]
        omega
      · intro i hi
        cases i with
        | zero => simpa using hak
        | succ j =>
          have hj := h3 j (by omega)
          have harith : k + 1 + j = k + (j + 1) := by omega
          rwa [harith] at hj
      · intro hlt
        have hf := h4 (by omega)
        have harith : k + 1 + m = k + (m + 1) := by omega
        rwa [harith] at hf
    · rw [Bool.not_eq_true] at hak
      refine ⟨0, by omega, ?_, ?_, ?_, ?_⟩
      · simp [stopPoll, hak]
      · simp only [stopPoll, hak]
        simp
      · intro i hi
        omega
      · intro _
        simpa using hak

/-- C6: stopping a VM whose marked process is live sends one graceful
termination signal, sleeps half a time unit per alive observation for at most
20 bounded attempts, escalates to a forceful kill followed by one more brief
wait exactly when all 20 observations saw the process alive, and in all cases
clears the pid marker, boot-mode marker, and console socket. -/
theorem vm_stop_two_phase (cfg : VMConfig) (env : Env) (fs : FileSys)
    (clk : Nat) (p : Int)
    (hp : VM.pid fs = some p) (ha : env.alive clk p = true) :
    (VM.stop cfg env fs clk).fs.pidFile = none ∧
    (VM.stop cfg env fs clk).fs.stateFile = none ∧
    (VM.stop cfg env fs clk).fs.sockFile = false ∧
    (VM.stop cfg env fs clk).err = none ∧
    ∃ m, m ≤ 20 ∧
      (VM.stop cfg env fs clk).events =
        Event.sigterm p :: (List.replicate m Event.sleepHalf ++
          (if m = 20 then [Event.sigkill p, Event.sleepHalf] else []) ++
          [Event.success ("Stopped " ++ cfg.name)]) ∧
      (m = 20 ↔ ∀ i, i < 20 → env.alive (clk + 1 + i) p = true) := by
  have hrun : VM.is_running env fs clk = true := by
    simp [VM.is_running, hp, ha]
  obtain ⟨m, hm, h1, h2, h3, h4⟩ :=
    stopPoll_char (fun k => env.alive (clk + 1 + k) p) 20 0
  have hstop : VM.stop cfg env fs clk =
      { fs := VM.cleanup_console_socket (VM.cleanup_state_files fs),
        clk := clk + 1 + (stopPoll (fun k => env.alive (clk + 1 + k) p) 20 0).2.2,
        events :=
          (if (stopPoll (fun k => env.alive (clk + 1 + k) p) 20 0).2.1 then
            Event.sigterm p :: (stopPoll (fun k => env.alive (clk + 1 + k) p) 20 0).1 ++
              [Event.sigkill p, Event.sleepHalf]
          else
            Event.sigterm p :: (stopPoll (fun k => env.alive (clk + 1 + k) p) 20 0).1) ++
          [Event.success ("Stopped " ++ cfg.name)],
        err := none } := by
    simp [VM.stop, hp, hrun]
  refine ⟨?_, ?_, ?_, ?_, m, hm, ?_, ?_⟩
  · rw [hstop]
    simp [VM.cleanup_console_socket, VM.cleanup_state_files]
  · rw [hstop]
    simp [VM.cleanup_console_socket, VM.cleanup_state_files]
  · rw [hstop]
    simp [VM.cleanup_console_socket, VM.cleanup_state_files]
  · rw [hstop]
  · rw [hstop]
    by_cases hm20 : m = 20
    · have hb : (stopPoll (fun k => env.alive (clk + 1 + k) p) 20 0).2.1 = true :=
        h2.mpr hm20
      simp [hb, h1, hm20]
    · have hb : (stopPoll (fun k => env.alive (clk + 1 + k) p) 20 0).2.1 = false := by
        rw [← Bool.not_eq_true]
        intro hcon
        exact hm20 (h2.mp hcon)
      simp [hb, h1, hm20]
  · constructor
    · intro hm20 i hi
      have := h3 i (by omega)
      simpa using this
    · intro hall
      by_contra hm20
      have hlt : m < 20 := by omega
      have hfalse := h4 hlt
      have htrue := hall m (by omega)
      simp at hfalse
      rw [htrue] at hfalse
      exact Bool.noConfusion hfalse

/-- C6 witness: with an always-alive process the stop escalates to a forceful
kill after 20 sleeps and clears all markers. -/
theorem vm_stop_two_phase_witness :
    (VM.stop minConfig envLive fsRunning 0).fs.pidFile = none ∧
    (VM.stop minConfig envLive fsRunning 0).fs.stateFile = none ∧
    (VM.stop minConfig envLive fsRunning 0).fs.sockFile = false ∧
    (VM.stop minConfig envLive fsRunning 0).err = none ∧
    ∃ m, m ≤ 20 ∧
      (VM.stop minConfig envLive fsRunning 0).events =
        Event.sigterm 42 :: (List.replicate m Event.sleepHalf ++
          (if m = 20 then [Event.sigkill 42, Event.sleepHalf] else []) ++
          [Event.success ("Stopped " ++ minConfig.name)]) ∧
      (m = 20 ↔ ∀ i, i < 20 → envLive.alive (0 + 1 + i) 42 = true) :=
  vm_stop_two_phase minConfig envLive fsRunning 0 42 (by decide) (by decide)

/-- When no probe ever succeeds, the readiness loop reports the timeout
message built from the requested timeout, accumulates two elapsed time units
per printed dot, and exits within one poll interval past the timeout. -/
theorem sshWaitAux_fail (probe : Nat → Bool) (timeout : Nat)
    (hp : ∀ j, probe j = false) :
    ∀ n k t, timeout - t ≤ n → t ≤ timeout + 1 →
      (sshWaitAux probe timeout k t).ok = false ∧
      (sshWaitAux probe timeout k t).errMsg =
        some ("SSH timeout after " ++ toString timeout ++ "s") ∧
      (sshWaitAux probe timeout k t).elapsed + 2 * k =
        2 * (sshWaitAux probe timeout k t).dots + t ∧
      timeout ≤ (sshWaitAux probe timeout k t).elapsed ∧
      (sshWaitAux probe timeout k t).elapsed ≤ timeout + 2 := by
  intro n
  induction n with
  | zero =>
    intro k t h1 h2
    unfold sshWaitAux
    rw [if_neg (by omega)]
    refine ⟨rfl, rfl, ?_, ?_, ?_⟩ <;> dsimp only <;> omega
  | succ n ih =>
    intro k t h1 h2
    by_cases hlt : t < timeout
    · unfold sshWaitAux
      rw [if_pos hlt, hp k, if_neg (by simp)]
      obtain ⟨g1, g2, g3, g4, g5⟩ := ih (k + 1) (t + 2) (by omega) (by omega)
      exact ⟨g1, g2, by omega, g4, g5⟩
    · unfold sshWaitAux
      rw [if_neg hlt]
      refine ⟨rfl, rfl, ?_, ?_, ?_⟩ <;> dsimp only <;> omega

/-- When some probe within the timeout window succeeds, the readiness loop
returns normally with no error. -/
theorem sshWaitAux_succ (probe : Nat → Bool) (timeout : Nat) :
    ∀ n k t, timeout - t ≤ n → t = 2 * k →
      (∃ j, k ≤ j ∧ 2 * j < timeout ∧ probe j = true) →
      (sshWaitAux probe timeout k t).ok = true ∧
      (sshWaitAux probe timeout k t).errMsg = none := by
  intro n
  induction n with
  | zero =>
    intro k t h1 h2 hex
    obtain ⟨j, hj1, hj2, _⟩ := hex
    exact absurd hj2 (by omega)
  | succ n ih =>
    intro k t h1 h2 hex
    obtain ⟨j, hj1, hj2, hj3⟩ := hex
    have hlt : t < timeout := by omega
    unfold sshWaitAux
    rw [if_pos hlt]
    by_cases hk : probe k = true
    · rw [if_pos hk]
      exact ⟨rfl, rfl⟩
    · rw [if_neg hk]
      have hne : j ≠ k := by
        intro hcon
        rw [hcon] at hj3
        exact hk hj3
      exact ih (k + 1) (t + 2) (by omega) (by omega) ⟨j, by omega, hj2, hj3⟩

/-- C7 counterexample: with an unreachable probe and timeout 1, the loop exits
after an elapsed time of 2 units, yet the raised message names the requested
timeout (1), not the elapsed duration — so the error does not carry the
elapsed duration as the claim states. -/
theorem sshclient_wait_elapsed_cex :
    (SSHClient.wait (fun _ => false) 1).elapsed = 2 ∧
    (SSHClient.wait (fun _ => false) 1).errMsg = some "SSH timeout after 1s" ∧
    some ("SSH timeout after " ++
        toString (SSHClient.wait (fun _ => false) 1).elapsed ++ "s") ≠
      (SSHClient.wait (fun _ => false) 1).errMsg := by
  have h : SSHClient.wait (fun _ => false) 1 =
      { ok := false, errMsg := some "SSH timeout after 1s", dots := 1, elapsed := 2 } := by
    simp [SSHClient.wait, sshWaitAux]
    rfl
  refine ⟨by rw [h], by rw [h], ?_⟩
  rw [h]
  decide

/-- C7 (amended): readiness polling with a probe that never succeeds polls at
a fixed 2-unit interval with one progress dot per failed attempt, returns
control within the timeout plus one poll interval, and fails with a timeout
error carrying the requested timeout duration; a probe succeeding within the
window returns normally. -/
theorem sshclient_wait_spec (probe : Nat → Bool) (timeout : Nat) :
    ((∀ k, probe k = false) →
      (SSHClient.wait probe timeout).ok = false ∧
      (SSHClient.wait probe timeout).errMsg =
        some ("SSH timeout after " ++ toString timeout ++ "s") ∧
      (SSHClient.wait probe timeout).elapsed =
        2 * (SSHClient.wait probe timeout).dots ∧
      timeout ≤ (SSHClient.wait probe timeout).elapsed ∧
      (SSHClient.wait probe timeout).elapsed ≤ timeout + 2) ∧
    ((∃ k, 2 * k < timeout ∧ probe k = true) →
      (SSHClient.wait probe timeout).ok = true ∧
      (SSHClient.wait probe timeout).errMsg = none) := by
  constructor
  · intro hp
    obtain ⟨g1, g2, g3, g4, g5⟩ :=
      sshWaitAux_fail probe timeout hp timeout 0 0 (by omega) (by omega)
    exact ⟨g1, g2, by simpa [SSHClient.wait] using (by omega :
      (sshWaitAux probe timeout 0 0).elapsed = 2 * (sshWaitAux probe timeout 0 0).dots),
      g4, g5⟩
  · rintro ⟨k0, hk1, hk2⟩
    exact sshWaitAux_succ probe timeout timeout 0 0 (by omega) (by omega)
      ⟨k0, by omega, hk1, hk2⟩

/-- C7 witness: concrete timeout with an unreachable probe and a concrete
immediately-ready probe. -/
theorem sshclient_wait_spec_witness :
    ((SSHClient.wait (fun _ => false) 4).ok = false ∧
     (SSHClient.wait (fun _ => false) 4).errMsg =
       some ("SSH timeout after " ++ toString 4 ++ "s") ∧
     (SSHClient.wait (fun _ => false) 4).elapsed =
       2 * (SSHClient.wait (fun _ => false) 4).dots ∧
     4 ≤ (SSHClient.wait (fun _ => false) 4).elapsed ∧
     (SSHClient.wait (fun _ => false) 4).elapsed ≤ 4 + 2) ∧
    ((SSHClient.wait (fun _ => true) 4).ok = true ∧
     (SSHClient.wait (fun _ => true) 4).errMsg = none) :=
  ⟨(sshclient_wait_spec (fun _ => false) 4).1 (fun _ => rfl),
   (sshclient_wait_spec (fun _ => true) 4).2 ⟨0, by omega, rfl⟩⟩

/-- C8: restarting a VM whose marked process is not live behaves identically
to starting it from the installed disk (same file state, same events, same
error); restarting a running VM stops it first and then starts from the
installed disk, regardless of the recorded boot mode. -/
theorem vm_restart_equiv (plat : PlatformInfo) (cfg : VMConfig) (env : Env)
    (fs : FileSys) (clk : Nat) :
    ((∀ t, VM.is_running env fs t = false) →
      (VM.restart plat cfg env fs clk).fs =
        (VM.start plat cfg BootMode.disk env fs clk).fs ∧
      (VM.restart plat cfg env fs clk).events =
        (VM.start plat cfg BootMode.disk env fs clk).events ∧
      (VM.restart plat cfg env fs clk).err =
        (VM.start plat cfg BootMode.disk env fs clk).err) ∧
    (VM.is_running env fs clk = true →
      VM.restart plat cfg env fs clk =
        { fs := (VM.start plat cfg BootMode.disk env
            (VM.stop cfg env fs (clk + 1)).fs (VM.stop cfg env fs (clk + 1)).clk).fs,
          clk := (VM.start plat cfg BootMode.disk env
            (VM.stop cfg env fs (clk + 1)).fs (VM.stop cfg env fs (clk + 1)).clk).clk,
          events := (VM.stop cfg env fs (clk + 1)).events ++
            (VM.start plat cfg BootMode.disk env
              (VM.stop cfg env fs (clk + 1)).fs (VM.stop cfg env fs (clk + 1)).clk).events,
          err := (VM.start plat cfg BootMode.disk env
            (VM.stop cfg env fs (clk + 1)).fs (VM.stop cfg env fs (clk + 1)).clk).err }) := by
  constructor
  · intro h
    refine ⟨?_, ?_, ?_⟩ <;> simp [VM.restart, VM.start, h]
  · intro h
    simp [VM.restart, h]

/-- C8 witness: concrete stopped VM where restart equals start-from-disk, and
concrete running VM where restart composes stop with start-from-disk. -/
theorem vm_restart_equiv_witness :
    ((VM.restart platT minConfig envDead fsStopped 0).fs =
       (VM.start platT minConfig BootMode.disk envDead fsStopped 0).fs ∧
     (VM.restart platT minConfig envDead fsStopped 0).events =
       (VM.start platT minConfig BootMode.disk envDead fsStopped 0).events ∧
     (VM.restart platT minConfig envDead fsStopped 0).err =
       (VM.start platT minConfig BootMode.disk envDead fsStopped 0).err) ∧
    VM.restart platT minConfig envLive fsRunning 0 =
      { fs := (VM.start platT minConfig BootMode.disk envLive
          (VM.stop minConfig envLive fsRunning 1).fs
          (VM.stop minConfig envLive fsRunning 1).clk).fs,
        clk := (VM.start platT minConfig BootMode.disk envLive
          (VM.stop minConfig envLive fsRunning 1).fs
          (VM.stop minConfig envLive fsRunning 1).clk).clk,
        events := (VM.stop minConfig envLive fsRunning 1).events ++
          (VM.start platT minConfig BootMode.disk envLive
            (VM.stop minConfig envLive fsRunning 1).fs
            (VM.stop minConfig envLive fsRunning 1).clk).events,
        err := (VM.start platT minConfig BootMode.disk envLive
          (VM.stop minConfig envLive fsRunning 1).fs
          (VM.stop minConfig envLive fsRunning 1).clk).err } :=
  ⟨(vm_restart_equiv platT minConfig envDead fsStopped 0).1 (fun _ => rfl),
   (vm_restart_equiv platT minConfig envLive fsRunning 0).2 (by decide)⟩

/-- C9: for every configuration and platform, the live-media argument vector
attaches the live ISO as a boot-priority CD-ROM and forwards the host port to
the guest-internal port 22, while the installed-disk vector boots from the
block device and forwards the host port to the VM-specific configured service
port. -/
theorem vm_build_qemu_asymmetry (plat : PlatformInfo) (cfg : VMConfig)
    (fs : FileSys) :
    (VM.build_qemu_command plat cfg fs BootMode.live).2 = 22 ∧
    List.IsInfix ["-cdrom", LIVE_ISO, "-boot", "d"]
      (VM.build_qemu_command plat cfg fs BootMode.live).1 ∧
    List.IsInfix ["-netdev",
        "user,id=net0,hostfwd=tcp::" ++ toString cfg.port ++ "-:" ++ toString 22]
      (VM.build_qemu_command plat cfg fs BootMode.live).1 ∧
    (VM.build_qemu_command plat cfg fs BootMode.disk).2 = cfg.ssh_port ∧
    List.IsInfix ["-boot", "c"]
      (VM.build_qemu_command plat cfg fs BootMode.disk).1 ∧
    List.IsInfix ["-netdev",
        "user,id=net0,hostfwd=tcp::" ++ toString cfg.port ++ "-:" ++ toString cfg.ssh_port]
      (VM.build_qemu_command plat cfg fs BootMode.disk).1 := by
  refine ⟨rfl, ?_, ?_, rfl, ?_, ?_⟩
  · refine ⟨qemuBase plat cfg,
      ["-netdev",
       "user,id=net0,hostfwd=tcp::" ++ toString cfg.port ++ "-:" ++ toString 22,
       "-device", "virtio-net-pci,netdev=net0,mac=" ++ cfg.mac] ++
        qemuSerialPart cfg ++ qemuDataPart cfg fs ++ qemuNicPart cfg, ?_⟩
    simp [VM.build_qemu_command, qemuBoot, List.append_assoc]
  · refine ⟨qemuBase plat cfg ++ ["-cdrom", LIVE_ISO, "-boot", "d"],
      ["-device", "virtio-net-pci,netdev=net0,mac=" ++ cfg.mac] ++
        qemuSerialPart cfg ++ qemuDataPart cfg fs ++ qemuNicPart cfg, ?_⟩
    simp [VM.build_qemu_command, qemuBoot, List.append_assoc]
  · refine ⟨qemuBase plat cfg,
      ["-netdev",
       "user,id=net0,hostfwd=tcp::" ++ toString cfg.port ++ "-:" ++ toString cfg.ssh_port,
       "-device", "virtio-net-pci,netdev=net0,mac=" ++ cfg.mac] ++
        qemuSerialPart cfg ++ qemuDataPart cfg fs ++ qemuNicPart cfg, ?_⟩
    simp [VM.build_qemu_command, qemuBoot, List.append_assoc]
  · refine ⟨qemuBase plat cfg ++ ["-boot", "c"],
      ["-device", "virtio-net-pci,netdev=net0,mac=" ++ cfg.mac] ++
        qemuSerialPart cfg ++ qemuDataPart cfg fs ++ qemuNicPart cfg, ?_⟩
    simp [VM.build_qemu_command, qemuBoot, List.append_assoc]

/-- C10: creating disks and then immediately deleting them leaves no system
image, no configured data image, and no boot-mode marker, pid marker, or
console socket, for every configuration, creation outcome, and prior file
state; a further delete on the already-clean state is a harmless no-op. -/
theorem vm_create_delete_clean (cfg : VMConfig) (cenv : CreateEnv)
    (fs : FileSys) :
    (VM.delete_disks cfg (VM.create_disks cfg cenv fs).1).systemDisk = false ∧
    (VM.delete_disks cfg (VM.create_disks cfg cenv fs).1).pidFile = none ∧
    (VM.delete_disks cfg (VM.create_disks cfg cenv fs).1).stateFile = none ∧
    (VM.delete_disks cfg (VM.create_disks cfg cenv fs).1).sockFile = false ∧
    (cfg.has_data_disk = true →
      (VM.delete_disks cfg (VM.create_disks cfg cenv fs).1).dataDisk = false) ∧
    VM.delete_disks cfg (VM.delete_disks cfg (VM.create_disks cfg cenv fs).1) =
      VM.delete_disks cfg (VM.create_disks cfg cenv fs).1 := by
  unfold VM.delete_disks VM.create_disks DiskManager.create DiskManager.delete
    VM.cleanup_state_files VM.cleanup_console_socket
  by_cases hd : cfg.has_data_disk = true <;>
    by_cases hs : cenv.sysImgOk = true <;>
    by_cases hda : cenv.dataImgOk = true <;>
    simp_all

/-- C10 witness: the configured data image of the `full` VM is gone after
create-then-delete. -/
theorem vm_create_delete_clean_witness :
    (VM.delete_disks fullConfig
      (VM.create_disks fullConfig cenvOk fsRunning).1).dataDisk = false :=
  (vm_create_delete_clean fullConfig cenvOk fsRunning).2.2.2.2.1 rfl
